import Mathlib

/-!
# Verification of the OpenSpace voice-command / autonavigation subsystems

Shallow embedding of:
* `VoiceCommandHandler` (src/src/interaction/voicecommandhandler.cpp) — the
  voice-pipeline state machine: `setState`, `setError`, `setTranscription`,
  `cleanupAudioFile`, `startRecording`, `stopRecording`, `processAudioData`,
  `generateAndExecuteScript`, `confirmTranscription`,
  `addStateChangeCallback` / `removeStateChangeCallback`.
* `PythonIPCHandler::sendMessage` (unnamed source file `part_001`).
* `ProfileEdit::duplicateProfile` (profileedit.cpp).
* `Path::Path` duration computation (modules/autonavigation/path.cpp).

External effects (audio device init/start, subprocess spawn/exit, file
save, file remove) are modelled as explicit oracle parameters; the
temporary-file directory is modelled as a list of file names carried next
to the handler state.  Callback invocations are returned as the list of
invoked callback handles, in invocation order.
-/

/-- The `VoiceCommandHandler::VoiceState` enumeration (voicecommandhandler.h). -/
inductive VoiceState where
  | Idle
  | Recording
  | Processing
  | GeneratingScript
  | Success
  | Error
deriving DecidableEq, Repr

/-- State of one `VoiceCommandHandler` instance, together with the ambient
pieces of world state the handler mutates: `files` models the contents of
the temporary audio directory `/tmp/openspace_voice/`, and `queuedScripts`
models the scripts handed to `global::scriptEngine->queueScript`.
`device` models whether the lazily constructed `ma_device` exists;
`capturedAudio` models the length of the captured-sample buffer. -/
structure VCH where
  state : VoiceState
  error : String
  transcription : String
  isRecordingProp : Bool
  device : Bool
  capturedAudio : Nat
  lastAudioPath : String
  needsRetry : Bool
  nextCallbackHandle : Nat
  callbacks : List Nat
  queuedScripts : List String
  files : List String
deriving DecidableEq, Repr

/-- The freshly constructed handler (constructor + member initializers). -/
def initHandler : VCH :=
  { state := VoiceState.Idle
    error := ""
    transcription := ""
    isRecordingProp := false
    device := false
    capturedAudio := 0
    lastAudioPath := ""
    needsRetry := false
    nextCallbackHandle := 0
    callbacks := []
    queuedScripts := []
    files := [] }

/-- Model of `VoiceCommandHandler::setState`: no-op when the new state equals the
stored one; otherwise updates `_state` and the `_isRecording` property and
invokes every registered callback, in the `std::map`'s ascending-key
iteration order.  Returns the new handler state and the list of invoked
callback handles. -/
def setState (h : VCH) (s : VoiceState) : VCH × List Nat :=
  if h.state = s then (h, [])
  else
    ({ h with state := s, isRecordingProp := (s = VoiceState.Recording) },
     h.callbacks)

/-- Model of `VoiceCommandHandler::setError`: no-op when the stored error equals the
new one; otherwise stores it and, when non-empty, transitions to `Error`. -/
def setError (h : VCH) (e : String) : VCH × List Nat :=
  if h.error = e then (h, [])
  else
    let h1 := { h with error := e }
    if e ≠ "" then setState h1 VoiceState.Error else (h1, [])

/-- Model of `VoiceCommandHandler::cleanupAudioFile`: deletes the retained temporary
audio file (if any), clears the retained path and the retry flag.
`removeOk` is the oracle for `std::filesystem::remove` not throwing: when
it throws (`removeOk = false`) the `catch` branch only logs a warning, so
the file, the retained path and the retry flag are all left in place. -/
def cleanupAudioFile (h : VCH) (removeOk : Bool) : VCH :=
  if h.lastAudioPath = "" then h
  else if removeOk then
    { h with
      files := h.files.filter (fun f => f ≠ h.lastAudioPath)
      lastAudioPath := ""
      needsRetry := false }
  else h

/-- Model of `VoiceCommandHandler::setTranscription`: no-op when unchanged; a
non-empty new value additionally cleans up the audio file and transitions
to `Idle`. -/
def setTranscription (h : VCH) (t : String) (removeOk : Bool) :
    VCH × List Nat :=
  if h.transcription = t then (h, [])
  else
    let h1 := { h with transcription := t }
    if t ≠ "" then setState (cleanupAudioFile h1 removeOk) VoiceState.Idle
    else (h1, [])

/-- Sorted insertion of a callback handle, modelling
`_stateChangeCallbacks[handle] = callback` on the `std::map` (keys kept in
ascending order; an existing key would be overwritten). -/
def insertHandle : List Nat → Nat → List Nat
  | [], k => [k]
  | x :: xs, k =>
    if k < x then k :: x :: xs
    else if k = x then k :: xs
    else x :: insertHandle xs k

/-- Model of `VoiceCommandHandler::addStateChangeCallback`: returns the next handle
and registers the callback under it. -/
def addStateChangeCallback (h : VCH) : VCH × Nat :=
  ({ h with
      nextCallbackHandle := h.nextCallbackHandle + 1
      callbacks := insertHandle h.callbacks h.nextCallbackHandle },
   h.nextCallbackHandle)

/-- Model of `VoiceCommandHandler::removeStateChangeCallback`: erases the map entry
with the given handle. -/
def removeStateChangeCallback (h : VCH) (k : Nat) : VCH :=
  { h with callbacks := h.callbacks.filter (fun x => x ≠ k) }

/-- Model of `VoiceCommandHandler::startRecording`.  `initOk` and `startOk` are
oracles for `ma_device_init` and `ma_device_start` succeeding.  Returns the
new handler state and the boolean return value. -/
def startRecording (h : VCH) (initOk startOk : Bool) : VCH × Bool :=
  if h.state = VoiceState.Recording then
    ((setError h "Already recording").1, false)
  else if ¬ h.device ∧ ¬ initOk then
    ((setError h "Failed to initialize audio capture").1, false)
  else
    let h1 := { h with device := true, capturedAudio := 0 }
    if ¬ startOk then
      ((setError h1 "Failed to start audio capture").1, false)
    else
      let h2 := (setError h1 "").1
      -- the empty transcription never reaches the cleanup branch, so the
      -- remove oracle is irrelevant here
      let h3 := (setTranscription h2 "" true).1
      ((setState h3 VoiceState.Recording).1, true)

/-- Whitespace set `" \t\n\r"` used by the line trimming in
`processAudioData` (`find_first_not_of`/`find_last_not_of`). -/
def isTrimWS (c : Char) : Bool :=
  c = ' ' || c = '\t' || c = '\n' || c = '\r'

/-- Trim the whitespace set from both ends of a line. -/
def trimString (s : String) : String :=
  String.mk (((s.toList.dropWhile isTrimWS).reverse.dropWhile isTrimWS).reverse)

/-- The output scan of `processAudioData`: every line is trimmed, blank
lines are skipped, and each line whose first character is a brace
overwrites the JSON result candidate (so the last such line is kept);
other lines only feed the diagnostic log. -/
def scanLines (lines : List String) : Option String :=
  lines.foldl
    (fun acc l =>
      let t := trimString l
      if t = "" then acc
      else if t.toList.head? = some (Char.ofNat 123) then some t
      else acc)
    none

/-- The fields of the parsed transcription JSON payload that
`processAudioData` reads.  `none` models a field whose access via
`nlohmann::json` throws (missing / wrong type). -/
structure TransJson where
  errField : Option String
  textField : Option String
deriving DecidableEq, Repr

/-- Oracle for one transcription-subprocess run: whether `popen`
succeeded, the captured output lines, the process exit status, the JSON
parser (third-party `nlohmann::json::parse`, `none` = parse exception),
and the exception message text used when parsing throws. -/
structure TransEnv where
  pipeOk : Bool
  outputLines : List String
  exitStatus : Int
  parse : String → Option TransJson
  exnMsg : String

/-- Model of `VoiceCommandHandler::processAudioData`: runs the transcription
subprocess on the retained audio file and returns the transcription text
(empty on failure, after `setError`). -/
def processAudioData (h : VCH) (env : TransEnv) : VCH × String :=
  if h.lastAudioPath = "" then
    ((setError h "No audio file available for processing").1, "")
  else if ¬ env.pipeOk then
    ((setError h "Failed to execute Python script").1, "")
  else
    match scanLines env.outputLines with
    | none => ((setError h "Failed to get transcription result").1, "")
    | some jsonLine =>
      if env.exitStatus ≠ 0 then
        ((setError h ("Python script failed with status: " ++
          toString env.exitStatus)).1, "")
      else
        match env.parse jsonLine with
        | none =>
          ((setError h ("Failed to parse transcription result: " ++
            env.exnMsg)).1, "")
        | some j =>
          match j.errField with
          | none =>
            ((setError h ("Failed to parse transcription result: " ++
              env.exnMsg)).1, "")
          | some e =>
            if e ≠ "" then ((setError h e).1, "")
            else
              match j.textField with
              | none => ((setError h "Invalid transcription response").1, "")
              | some t =>
                if t = "" then ((setError h "No speech detected").1, "")
                else ({ (setError h "").1 with needsRetry := false }, t)

/-- The temporary audio file name `audio_<millisecond-timestamp>.raw`
under the fixed temporary directory (`saveAudioToTemp`). -/
def audioFileName (timestamp : Nat) : String :=
  "/tmp/openspace_voice/audio_" ++ (toString timestamp ++ ".raw")

/-- Oracle for one `stopRecording` call: whether `saveAudioToTemp`'s file
write succeeds, the timestamp used for the file name, and the
transcription-subprocess oracle. -/
structure StopEnv where
  saveOk : Bool
  timestamp : Nat
  trans : TransEnv
  removeOk : Bool

/-- Model of `VoiceCommandHandler::stopRecording`: stops the device, transitions to
`Processing`, saves the buffer to the timestamped temporary file, runs the
transcription step, and on a non-empty transcription stores it (which
cleans up the audio file and moves to `Idle`). -/
def stopRecording (h : VCH) (env : StopEnv) : VCH × Bool :=
  if h.state ≠ VoiceState.Recording then
    ((setError h "Not currently recording").1, false)
  else
    let h1 := (setState h VoiceState.Processing).1
    if ¬ env.saveOk then
      let h2 := (setError h1 "Failed to save audio data").1
      ((setState h2 VoiceState.Error).1, false)
    else
      let p := audioFileName env.timestamp
      let h2 := { h1 with lastAudioPath := p, files := p :: h1.files }
      let r := processAudioData h2 env.trans
      if r.2 = "" then ((setState r.1 VoiceState.Error).1, false)
      else ((setTranscription r.1 r.2 env.removeOk).1, true)

/-- The fields of the parsed script-generation JSON payload that
`generateAndExecuteScript` reads (`none` models a throwing access). -/
structure GenJson where
  successField : Option Bool
  errField : Option String
  scriptField : Option String
deriving DecidableEq, Repr

/-- Oracle for one script-generation subprocess run. -/
structure GenEnv where
  pipeOk : Bool
  exitStatus : Int
  parsed : Option GenJson
  exnMsg : String

/-- Model of `VoiceCommandHandler::generateAndExecuteScript`: runs the LLM
subprocess on the transcription and, on success, queues the generated
script and moves to `Success`.  The detached 2-second timer that later
moves `Success` back to `Idle` is asynchronous and not part of the
returned state. -/
def generateAndExecuteScript (h : VCH) (t : String) (env : GenEnv) : VCH :=
  if t = "" then (setError h "Empty transcription").1
  else
    let h1 := (setState h VoiceState.GeneratingScript).1
    if ¬ env.pipeOk then
      (setState (setError h1 "Failed to execute script generation service").1
        VoiceState.Error).1
    else if env.exitStatus ≠ 0 then
      (setState (setError h1 "Script generation failed").1 VoiceState.Error).1
    else
      match env.parsed with
      | none =>
        (setState (setError h1 ("Failed to parse script generation result: " ++
          env.exnMsg)).1 VoiceState.Error).1
      | some j =>
        match j.successField with
        | none =>
          (setState (setError h1 ("Failed to parse script generation result: " ++
            env.exnMsg)).1 VoiceState.Error).1
        | some ok =>
          if ¬ ok then
            match j.errField with
            | none =>
              (setState (setError h1 ("Failed to parse script generation result: " ++
                env.exnMsg)).1 VoiceState.Error).1
            | some e =>
              (setState (setError h1 ("Script generation failed: " ++ e)).1
                VoiceState.Error).1
          else
            match j.scriptField with
            | none =>
              (setState (setError h1 ("Failed to parse script generation result: " ++
                env.exnMsg)).1 VoiceState.Error).1
            | some s =>
              if s = "" then
                (setState (setError h1 "Generated script is empty").1
                  VoiceState.Error).1
              else
                let h2 := { h1 with queuedScripts := h1.queuedScripts ++ [s] }
                (setState (setError h2 "").1 VoiceState.Success).1

/-- Model of `VoiceCommandHandler::confirmTranscription`: rejects unless `Idle`
with a non-empty transcription; otherwise runs script generation. -/
def confirmTranscription (h : VCH) (env : GenEnv) : VCH × Bool :=
  if h.state ≠ VoiceState.Idle ∨ h.transcription = "" then
    ((setError h "No transcription available or not in idle state").1, false)
  else
    (generateAndExecuteScript h h.transcription env, true)

/-- One call in a `startRecording`/`stopRecording` call sequence. -/
inductive RecOp where
  | start (initOk startOk : Bool)
  | stop (env : StopEnv)

/-- Run a sequence of `startRecording`/`stopRecording` calls. -/
def runRec : VCH → List RecOp → VCH
  | h, [] => h
  | h, RecOp.start i s :: rest => runRec (startRecording h i s).1 rest
  | h, RecOp.stop env :: rest => runRec (stopRecording h env).1 rest

/-- One callback-registration / state operation (claim about the
callback map). -/
inductive CbOp where
  | add
  | rem (k : Nat)
  | set (s : VoiceState)

/-- Run a sequence of callback-map operations, collecting the handles
returned by the `add` calls, in call order. -/
def runCbOps : VCH → List CbOp → VCH × List Nat
  | h, [] => (h, [])
  | h, CbOp.add :: rest =>
    let a := addStateChangeCallback h
    let r := runCbOps a.1 rest
    (r.1, a.2 :: r.2)
  | h, CbOp.rem k :: rest => runCbOps (removeStateChangeCallback h k) rest
  | h, CbOp.set s :: rest => runCbOps (setState h s).1 rest

/-- Number of `add` operations in a sequence. -/
def countAdds : List CbOp → Nat
  | [] => 0
  | CbOp.add :: rest => countAdds rest + 1
  | CbOp.rem _ :: rest => countAdds rest
  | CbOp.set _ :: rest => countAdds rest

/-- Model of `PythonIPCHandler::IPCMessage::Type` (pythonipchandler.h), in
declaration order. -/
inductive IPCType where
  | AudioData
  | Transcription
  | LuaScript
  | Error
  | Status
deriving DecidableEq, Repr

/-- The `static_cast<int>` value of each `IPCMessage::Type` enumerator. -/
def ipcTypeCode : IPCType → Nat
  | IPCType.AudioData => 0
  | IPCType.Transcription => 1
  | IPCType.LuaScript => 2
  | IPCType.Error => 3
  | IPCType.Status => 4

/-- Model of `PythonIPCHandler::IPCMessage`. -/
structure IPCMessage where
  type : IPCType
  data : String
  metadata : String
deriving DecidableEq, Repr

/-- The exact serialization string built by `PythonIPCHandler::sendMessage`
via `fmt::format("{{\"type\":\"{}\",\"data\":\"{}\",\"metadata\":\"{}\"}}", ...)`
(no escaping of the payload strings is performed). -/
def serializeIPCMessage (m : IPCMessage) : String :=
  "\x7b\"type\":\"" ++ (toString (ipcTypeCode m.type) ++
    ("\",\"data\":\"" ++ (m.data ++
      ("\",\"metadata\":\"" ++ (m.metadata ++ "\"\x7d")))))

/-- Model of `PythonIPCHandler::sendMessage`: fails when not connected; otherwise
serializes the message and writes it to the socket (`sendOk` is the oracle
for the `send` call's result).  Returns the boolean result and the bytes
written to the socket, if any. -/
def sendMessage (connected sendOk : Bool) (m : IPCMessage) : Bool × Option String :=
  if ¬ connected then (false, none)
  else (sendOk, some (serializeIPCMessage m))

/-- A primitive JSON value: string or integer.  Used to state, neutrally,
what JSON object a serialized byte string denotes. -/
inductive JPrim where
  | jstr (s : String)
  | jint (n : Int)
deriving DecidableEq, Repr

/-- Standard rendering of a primitive JSON value (payload strings are
spliced verbatim, matching the unescaped splicing done by the code). -/
def renderPrim : JPrim → String
  | JPrim.jstr s => "\"" ++ (s ++ "\"")
  | JPrim.jint n => toString n

/-- Standard rendering of a flat JSON object from its field list. -/
def renderFlatObj (fields : List (String × JPrim)) : String :=
  "\x7b" ++
    (String.intercalate ","
      (fields.map (fun p => "\"" ++ (p.1 ++ ("\":" ++ renderPrim p.2)))) ++
     "\x7d")

/-- The space set accepted by `std::stoi`'s leading-whitespace skip
(C `isspace`). -/
def cIsSpace (c : Char) : Bool :=
  c = ' ' || c = '\t' || c = '\n' || c = Char.ofNat 11 || c = Char.ofNat 12 ||
    c = '\r'

/-- Model of `std::stoi` on a character list: optional leading whitespace, optional
sign, then at least one decimal digit (trailing junk ignored); `none`
models the `std::invalid_argument` exception. -/
def stoiOpt (cs : List Char) : Option Int :=
  let cs1 := cs.dropWhile cIsSpace
  let sgn : Int × List Char :=
    match cs1 with
    | '-' :: rest => (-1, rest)
    | '+' :: rest => (1, rest)
    | _ => (1, cs1)
  let digits := sgn.2.takeWhile (fun c => c.isDigit)
  if digits = [] then none
  else some (sgn.1 * ((digits.foldl (fun a c => a * 10 + (c.toNat - 48)) 0 : Nat) : Int))

/-- Index of the last occurrence of a character (`std::string::rfind`). -/
def lastIdxOf (cs : List Char) (c : Char) : Option Nat :=
  cs.enum.foldl (fun acc p => if p.2 = c then some p.1 else acc) none

/-- The version-probing loop of `ProfileEdit::duplicateProfile`: increment
the version and test `<profileBasePath><base>_<version>.profile` until a
candidate does not exist on disk.  `fuel` bounds the unbounded
`while (true)` loop of the source; on exhaustion the original name is
returned (the source would loop on). -/
def duplicateLoop (basePath base : String) (fileExists : String → Bool) :
    Nat → Int → String → String
  | 0, _, fallback => fallback
  | fuel + 1, version, fallback =>
    let v := version + 1
    let candidate := base ++ ("_" ++ toString v)
    if ¬ fileExists (basePath ++ (candidate ++ ".profile")) then candidate
    else duplicateLoop basePath base fileExists fuel v fallback

/-- Model of `ProfileEdit::duplicateProfile` on the name-field text: an empty name
is left unchanged; a trailing `_`-separated numeric suffix is parsed as
the current version and stripped (a non-numeric suffix leaves the name
as-is with version 0); then the first free `base_<version>` candidate is
chosen. -/
def duplicateProfile (fuel : Nat) (basePath : String)
    (fileExists : String → Bool) (name : String) : String :=
  if name = "" then name
  else
    let cs := name.toList
    let pair : List Char × Int :=
      match lastIdxOf cs '_' with
      | none => (cs, 0)
      | some i =>
        match stoiOpt (cs.drop (i + 1)) with
        | some v => (cs.take i, v)
        | none => (cs, 0)
    duplicateLoop basePath (String.mk pair.1) fileExists fuel pair.2 name

/-- The duration computation of the `Path` constructor
(modules/autonavigation/path.cpp, lines 82–90): an explicit duration is
used unchanged; otherwise `_duration = std::log(pathLength())` divided by
the navigation handler's speed scale. -/
noncomputable def mkPathDuration (duration : Option ℝ)
    (pathLength speedScale : ℝ) : ℝ :=
  match duration with
  | some d => d
  | none => Real.log pathLength / speedScale

/-- A handler that has just successfully started recording (a reachable
`Recording` state, used as concrete input below). -/
def hRec : VCH := (startRecording initHandler true true).1

/-- A trivial script-generation oracle (never consulted on reject paths). -/
def genEnvTriv : GenEnv :=
  { pipeOk := true, exitStatus := 0, parsed := none, exnMsg := "" }

/-- A concrete transcription-subprocess JSON output line with empty
`error` and empty `text`. -/
def jsonLineEmpty : String :=
  "\x7b\"error\": \"\", \"text\": \"\"\x7d"

/-- A concrete transcription-subprocess JSON output line with empty
`error` and text `"hello"`. -/
def jsonLineHello : String :=
  "\x7b\"error\": \"\", \"text\": \"hello\"\x7d"

/-- A concrete transcription oracle emitting `jsonLineEmpty`. -/
def transEnvEmptyText : TransEnv :=
  { pipeOk := true
    outputLines := [jsonLineEmpty]
    exitStatus := 0
    parse := fun l =>
      if l = jsonLineEmpty then some { errField := some "", textField := some "" }
      else none
    exnMsg := "" }

/-- A concrete transcription oracle emitting a diagnostic line and then
`jsonLineHello`. -/
def transEnvHello : TransEnv :=
  { pipeOk := true
    outputLines := ["loading model", jsonLineHello]
    exitStatus := 0
    parse := fun l =>
      if l = jsonLineHello then some { errField := some "", textField := some "hello" }
      else none
    exnMsg := "" }

/-- A concrete `stopRecording` oracle whose save and transcription both
succeed. -/
def stopEnvOk : StopEnv :=
  { saveOk := true, timestamp := 17, trans := transEnvHello
    removeOk := true }

/-- A concrete `stopRecording` oracle whose save and transcription
succeed but whose `std::filesystem::remove` throws. -/
def stopEnvRemoveFail : StopEnv :=
  { saveOk := true, timestamp := 17, trans := transEnvHello
    removeOk := false }

/-- Invariant used for the recording claims: while the handler is in the
`Recording` state its stored transcription is empty (it was cleared by the
successful `startRecording` that entered the state). -/
def RecInv (h : VCH) : Prop :=
  h.state = VoiceState.Recording → h.transcription = ""

/-- Invariant of the callback registry: every registered handle is below
the next handle to be assigned, and the registry is strictly ascending. -/
def CbInv (h : VCH) : Prop :=
  (∀ x ∈ h.callbacks, x < h.nextCallbackHandle) ∧
    h.callbacks.Pairwise (· < ·)

@[simp] theorem setState_fst_state (h : VCH) (s : VoiceState) :
    (setState h s).1.state = s := by
  by_cases hs : h.state = s <;> simp [setState, hs]

@[simp] theorem setState_fst_error (h : VCH) (s : VoiceState) :
    (setState h s).1.error = h.error := by
  by_cases hs : h.state = s <;> simp [setState, hs]

@[simp] theorem setState_fst_transcription (h : VCH) (s : VoiceState) :
    (setState h s).1.transcription = h.transcription := by
  by_cases hs : h.state = s <;> simp [setState, hs]

@[simp] theorem setState_fst_lastAudioPath (h : VCH) (s : VoiceState) :
    (setState h s).1.lastAudioPath = h.lastAudioPath := by
  by_cases hs : h.state = s <;> simp [setState, hs]

@[simp] theorem setState_fst_files (h : VCH) (s : VoiceState) :
    (setState h s).1.files = h.files := by
  by_cases hs : h.state = s <;> simp [setState, hs]

@[simp] theorem setState_fst_needsRetry (h : VCH) (s : VoiceState) :
    (setState h s).1.needsRetry = h.needsRetry := by
  by_cases hs : h.state = s <;> simp [setState, hs]

@[simp] theorem setState_fst_device (h : VCH) (s : VoiceState) :
    (setState h s).1.device = h.device := by
  by_cases hs : h.state = s <;> simp [setState, hs]

@[simp] theorem setState_fst_capturedAudio (h : VCH) (s : VoiceState) :
    (setState h s).1.capturedAudio = h.capturedAudio := by
  by_cases hs : h.state = s <;> simp [setState, hs]

@[simp] theorem setState_fst_callbacks (h : VCH) (s : VoiceState) :
    (setState h s).1.callbacks = h.callbacks := by
  by_cases hs : h.state = s <;> simp [setState, hs]

@[simp] theorem setState_fst_nextCallbackHandle (h : VCH) (s : VoiceState) :
    (setState h s).1.nextCallbackHandle = h.nextCallbackHandle := by
  by_cases hs : h.state = s <;> simp [setState, hs]

@[simp] theorem setState_fst_queuedScripts (h : VCH) (s : VoiceState) :
    (setState h s).1.queuedScripts = h.queuedScripts := by
  by_cases hs : h.state = s <;> simp [setState, hs]

@[simp] theorem setError_fst_error (h : VCH) (e : String) :
    (setError h e).1.error = e := by
  by_cases he : h.error = e <;> by_cases he' : e = "" <;> subst_vars <;>
    simp_all [setError]

theorem setError_fst_state (h : VCH) (e : String) :
    (setError h e).1.state =
      if h.error = e ∨ e = "" then h.state else VoiceState.Error := by
  by_cases he : h.error = e <;> by_cases he' : e = "" <;> subst_vars <;>
    simp_all [setError]

@[simp] theorem setError_fst_transcription (h : VCH) (e : String) :
    (setError h e).1.transcription = h.transcription := by
  by_cases he : h.error = e <;> by_cases he' : e = "" <;> subst_vars <;>
    simp_all [setError]

@[simp] theorem setError_fst_lastAudioPath (h : VCH) (e : String) :
    (setError h e).1.lastAudioPath = h.lastAudioPath := by
  by_cases he : h.error = e <;> by_cases he' : e = "" <;> subst_vars <;>
    simp_all [setError]

@[simp] theorem setError_fst_files (h : VCH) (e : String) :
    (setError h e).1.files = h.files := by
  by_cases he : h.error = e <;> by_cases he' : e = "" <;> subst_vars <;>
    simp_all [setError]

@[simp] theorem setError_fst_needsRetry (h : VCH) (e : String) :
    (setError h e).1.needsRetry = h.needsRetry := by
  by_cases he : h.error = e <;> by_cases he' : e = "" <;> subst_vars <;>
    simp_all [setError]

@[simp] theorem setError_fst_device (h : VCH) (e : String) :
    (setError h e).1.device = h.device := by
  by_cases he : h.error = e <;> by_cases he' : e = "" <;> subst_vars <;>
    simp_all [setError]

@[simp] theorem setError_fst_callbacks (h : VCH) (e : String) :
    (setError h e).1.callbacks = h.callbacks := by
  by_cases he : h.error = e <;> by_cases he' : e = "" <;> subst_vars <;>
    simp_all [setError]

@[simp] theorem setError_fst_capturedAudio (h : VCH) (e : String) :
    (setError h e).1.capturedAudio = h.capturedAudio := by
  by_cases he : h.error = e <;> by_cases he' : e = "" <;> subst_vars <;>
    simp_all [setError]

@[simp] theorem setError_fst_nextCallbackHandle (h : VCH) (e : String) :
    (setError h e).1.nextCallbackHandle = h.nextCallbackHandle := by
  by_cases he : h.error = e <;> by_cases he' : e = "" <;> subst_vars <;>
    simp_all [setError]

@[simp] theorem setError_fst_queuedScripts (h : VCH) (e : String) :
    (setError h e).1.queuedScripts = h.queuedScripts := by
  by_cases he : h.error = e <;> by_cases he' : e = "" <;> subst_vars <;>
    simp_all [setError]

@[simp] theorem setTranscription_fst_transcription (h : VCH) (t : String)
    (rOk : Bool) : (setTranscription h t rOk).1.transcription = t := by
  cases rOk <;> by_cases ht : h.transcription = t <;>
    by_cases ht' : t = "" <;> by_cases hp : h.lastAudioPath = "" <;>
    subst_vars <;> simp_all [setTranscription, cleanupAudioFile]

@[simp] theorem setTranscription_fst_error (h : VCH) (t : String)
    (rOk : Bool) : (setTranscription h t rOk).1.error = h.error := by
  cases rOk <;> by_cases ht : h.transcription = t <;>
    by_cases ht' : t = "" <;> by_cases hp : h.lastAudioPath = "" <;>
    subst_vars <;> simp_all [setTranscription, cleanupAudioFile]

theorem setTranscription_empty_fst_state (h : VCH) (rOk : Bool) :
    (setTranscription h "" rOk).1.state = h.state := by
  by_cases ht : h.transcription = "" <;> simp [setTranscription, ht]

/-- C7: for every Path constructed without an explicit duration, the
duration equals the natural logarithm of the curve's total length divided
by the navigation handler's speed-scale parameter
(`duration = ln(pathLength) / speedScale`); an explicitly supplied
duration is used unchanged. -/
theorem c7_path_duration :
    (∀ pathLength speedScale : ℝ,
      mkPathDuration none pathLength speedScale =
        Real.log pathLength / speedScale) ∧
    (∀ d pathLength speedScale : ℝ,
      mkPathDuration (some d) pathLength speedScale = d) :=
  ⟨fun _ _ => rfl, fun _ _ _ => rfl⟩

/-- C10: calling `setError e` when the stored error already equals `e`
changes nothing (no field update, no state transition, no callback
notification); a non-empty error message forces a transition to `Error`
only when it differs from the currently stored error. -/
theorem c10_setError_idempotent :
    (∀ (h : VCH) (e : String), h.error = e → setError h e = (h, [])) ∧
    (∀ (h : VCH) (e : String), h.error ≠ e → e ≠ "" →
      (setError h e).1.state = VoiceState.Error ∧
      (setError h e).1.error = e) := by
  constructor
  · intro h e he
    simp [setError, he]
  · intro h e he hne
    refine ⟨?_, setError_fst_error h e⟩
    rw [setError_fst_state]
    simp [he, hne]

/-- C10 witness: `c10_setError_idempotent` applied at concrete inputs. -/
theorem c10_setError_idempotent_witness :
    (setError initHandler "" = (initHandler, [])) ∧
    ((setError initHandler "boom").1.state = VoiceState.Error ∧
     (setError initHandler "boom").1.error = "boom") :=
  ⟨c10_setError_idempotent.1 initHandler "" (by decide),
   c10_setError_idempotent.2 initHandler "boom" (by decide) (by decide)⟩

/-- C1 counterexample: starting from a reachable `Recording` handler
(`hRec`, whose stored error is empty), `startRecording` returns `false`
and sets the error `"Already recording"`, but the state does NOT stay at
`Recording` — `setError` moves it to `Error`.  This refutes the claim that
the state is left unchanged at `Recording`. -/
theorem c1_counterexample :
    hRec.state = VoiceState.Recording ∧
    (startRecording hRec true true).2 = false ∧
    (startRecording hRec true true).1.error = "Already recording" ∧
    (startRecording hRec true true).1.state ≠ VoiceState.Recording := by
  decide

/-- C1 (amended): calling `startRecording` while the state is `Recording`
returns `false`, sets the error string to `"Already recording"`, and
leaves the transcription untouched; the state stays at `Recording` only
when the stored error already equals `"Already recording"` — otherwise
`setError` transitions it to `Error`. -/
theorem c1_start_while_recording (h : VCH) (iOk sOk : Bool)
    (hs : h.state = VoiceState.Recording) :
    (startRecording h iOk sOk).2 = false ∧
    (startRecording h iOk sOk).1.error = "Already recording" ∧
    (startRecording h iOk sOk).1.state =
      (if h.error = "Already recording" then VoiceState.Recording
       else VoiceState.Error) ∧
    (startRecording h iOk sOk).1.transcription = h.transcription := by
  unfold startRecording
  rw [if_pos hs]
  refine ⟨rfl, setError_fst_error h _, ?_, setError_fst_transcription h _⟩
  rw [setError_fst_state]
  split_ifs with h1 h2 h2 <;> simp_all

/-- C1 witness: `c1_start_while_recording` applied at `hRec`. -/
theorem c1_start_while_recording_witness :
    (startRecording hRec true true).2 = false ∧
    (startRecording hRec true true).1.error = "Already recording" ∧
    (startRecording hRec true true).1.state =
      (if hRec.error = "Already recording" then VoiceState.Recording
       else VoiceState.Error) ∧
    (startRecording hRec true true).1.transcription = hRec.transcription :=
  c1_start_while_recording hRec true true (by decide)

/-- C2 counterexample: on the reachable handler `hRec` (state `Recording`,
so not `Idle`), `confirmTranscription` returns `false` but does change the
state — `setError` moves it to `Error`.  This refutes the claim that the
state is unchanged. -/
theorem c2_counterexample :
    hRec.state ≠ VoiceState.Idle ∧
    (confirmTranscription hRec genEnvTriv).2 = false ∧
    (confirmTranscription hRec genEnvTriv).1.state ≠ hRec.state := by
  decide

/-- C2 (amended): calling `confirmTranscription` while the state is not
`Idle`, or while the stored transcription is empty, returns `false`, sets
the error string `"No transcription available or not in idle state"`, and
leaves the transcription untouched; the state is unchanged only when the
stored error already equals that message — otherwise `setError`
transitions it to `Error`. -/
theorem c2_confirm_reject (h : VCH) (env : GenEnv)
    (hrej : h.state ≠ VoiceState.Idle ∨ h.transcription = "") :
    (confirmTranscription h env).2 = false ∧
    (confirmTranscription h env).1.error =
      "No transcription available or not in idle state" ∧
    (confirmTranscription h env).1.state =
      (if h.error = "No transcription available or not in idle state"
       then h.state else VoiceState.Error) ∧
    (confirmTranscription h env).1.transcription = h.transcription := by
  unfold confirmTranscription
  rw [if_pos hrej]
  refine ⟨rfl, setError_fst_error h _, ?_, setError_fst_transcription h _⟩
  rw [setError_fst_state]
  split_ifs with h1 h2 h2 <;> simp_all

/-- C2 witness: `c2_confirm_reject` applied at `hRec`. -/
theorem c2_confirm_reject_witness :
    (confirmTranscription hRec genEnvTriv).2 = false ∧
    (confirmTranscription hRec genEnvTriv).1.error =
      "No transcription available or not in idle state" ∧
    (confirmTranscription hRec genEnvTriv).1.state =
      (if hRec.error = "No transcription available or not in idle state"
       then hRec.state else VoiceState.Error) ∧
    (confirmTranscription hRec genEnvTriv).1.transcription =
      hRec.transcription :=
  c2_confirm_reject hRec genEnvTriv (Or.inl (by decide))

/-- C9: the `startRecording` guard rejects only the `Recording` state —
from every other state, with the capture device initializing and starting
successfully, the call returns `true` and clears both the stored error and
the stored transcription to empty strings before transitioning to
`Recording`. -/
theorem c9_start_guard (h : VCH) (hne : h.state ≠ VoiceState.Recording) :
    (startRecording h true true).2 = true ∧
    (startRecording h true true).1.error = "" ∧
    (startRecording h true true).1.transcription = "" ∧
    (startRecording h true true).1.state = VoiceState.Recording := by
  unfold startRecording
  simp [hne]

/-- C9 witness: `c9_start_guard` applied at the freshly constructed
handler (state `Idle`). -/
theorem c9_start_guard_witness :
    (startRecording initHandler true true).2 = true ∧
    (startRecording initHandler true true).1.error = "" ∧
    (startRecording initHandler true true).1.transcription = "" ∧
    (startRecording initHandler true true).1.state = VoiceState.Recording :=
  c9_start_guard initHandler (by decide)

/-- C6: when the transcription subprocess output yields a JSON payload
line whose `error` field is empty and whose `text` field is the empty
string, `processAudioData` sets the handler's error to
`"No speech detected"` and returns the empty string. -/
theorem c6_no_speech (h : VCH) (env : TransEnv) (L : String)
    (hp : ¬ h.lastAudioPath = "") (hpipe : env.pipeOk = true)
    (hstatus : env.exitStatus = 0)
    (hscan : scanLines env.outputLines = some L)
    (hparse : env.parse L = some { errField := some "", textField := some "" }) :
    (processAudioData h env).2 = "" ∧
    (processAudioData h env).1.error = "No speech detected" := by
  unfold processAudioData
  rw [if_neg hp]
  simp [hpipe, hscan, hstatus, hparse]

/-- C6 witness: `c6_no_speech` at a concrete handler and the concrete
oracle `transEnvEmptyText`. -/
theorem c6_no_speech_witness :
    (processAudioData { initHandler with lastAudioPath := "a" }
      transEnvEmptyText).2 = "" ∧
    (processAudioData { initHandler with lastAudioPath := "a" }
      transEnvEmptyText).1.error = "No speech detected" :=
  c6_no_speech { initHandler with lastAudioPath := "a" } transEnvEmptyText
    jsonLineEmpty (by decide) (by decide) (by decide) (by decide) (by decide)

/-- C5: the duplicate-name algorithm applied to `"Earth_3"`, when
`Earth_4.profile` exists under the profile base path and
`Earth_5.profile` does not, parses and strips the numeric suffix,
increments the version, skips the taken candidate `Earth_4`, and sets the
name to `"Earth_5"`. -/
theorem c5_duplicate_profile (basePath : String) (fileExists : String → Bool)
    (fuel : Nat) (hfuel : 2 ≤ fuel)
    (h4 : fileExists (basePath ++ "Earth_4.profile") = true)
    (h5 : fileExists (basePath ++ "Earth_5.profile") = false) :
    duplicateProfile fuel basePath fileExists "Earth_3" = "Earth_5" := by
  obtain ⟨k, rfl⟩ : ∃ k, fuel = k + 2 := ⟨fuel - 2, by omega⟩
  have e1 : duplicateProfile (k + 2) basePath fileExists "Earth_3" =
      duplicateLoop basePath "Earth" fileExists (k + 2) 3 "Earth_3" := rfl
  have e2 : duplicateLoop basePath "Earth" fileExists (k + 2) 3 "Earth_3" =
      if ¬ fileExists (basePath ++ "Earth_4.profile") then "Earth_4"
      else duplicateLoop basePath "Earth" fileExists (k + 1) 4 "Earth_3" := rfl
  have e3 : duplicateLoop basePath "Earth" fileExists (k + 1) 4 "Earth_3" =
      if ¬ fileExists (basePath ++ "Earth_5.profile") then "Earth_5"
      else duplicateLoop basePath "Earth" fileExists k 5 "Earth_3" := rfl
  rw [e1, e2, h4, e3, h5]
  simp

/-- C5 witness: `c5_duplicate_profile` with base path `""` and a concrete
existence oracle under which exactly `Earth_4.profile` exists. -/
theorem c5_duplicate_profile_witness :
    duplicateProfile 2 "" (fun p => p == "Earth_4.profile") "Earth_3" =
      "Earth_5" :=
  c5_duplicate_profile "" (fun p => p == "Earth_4.profile") 2 (by decide)
    (by decide) (by decide)

theorem lit_merge {a b c : String} (hab : a ++ b = c) (X : String) :
    a ++ (b ++ X) = c ++ X := by
  rw [← String.append_assoc, hab]

theorem renderChunks (X Y Z : String) :
    "\x7b" ++ ("\"" ++ ("type" ++ ("\":" ++ ("\"" ++ (X ++ ("\"" ++ ("," ++
      ("\"" ++ ("data" ++ ("\":" ++ ("\"" ++ (Y ++ ("\"" ++ ("," ++
      ("\"" ++ ("metadata" ++ ("\":" ++ ("\"" ++ (Z ++ ("\"" ++
      "\x7d")))))))))))))))))))) =
    "\x7b\"type\":\"" ++ (X ++ ("\",\"data\":\"" ++ (Y ++
      ("\",\"metadata\":\"" ++ (Z ++ "\"\x7d"))))) := by
  rw [lit_merge (show ("\x7b" : String) ++ "\"" = "\x7b\"" by decide)]
  rw [lit_merge (show ("\x7b\"" : String) ++ "type" = "\x7b\"type" by decide)]
  rw [lit_merge (show ("\x7b\"type" : String) ++ "\":" = "\x7b\"type\":" by decide)]
  rw [lit_merge (show ("\x7b\"type\":" : String) ++ "\"" = "\x7b\"type\":\"" by decide)]
  rw [lit_merge (show ("\"" : String) ++ "," = "\"," by decide)]
  rw [lit_merge (show ("\"," : String) ++ "\"" = "\",\"" by decide)]
  rw [lit_merge (show ("\",\"" : String) ++ "data" = "\",\"data" by decide)]
  rw [lit_merge (show ("\",\"data" : String) ++ "\":" = "\",\"data\":" by decide)]
  rw [lit_merge (show ("\",\"data\":" : String) ++ "\"" = "\",\"data\":\"" by decide)]
  rw [lit_merge (show ("\"" : String) ++ "," = "\"," by decide)]
  rw [lit_merge (show ("\"," : String) ++ "\"" = "\",\"" by decide)]
  rw [lit_merge (show ("\",\"" : String) ++ "metadata" = "\",\"metadata" by decide)]
  rw [lit_merge (show ("\",\"metadata" : String) ++ "\":" = "\",\"metadata\":" by decide)]
  rw [lit_merge (show ("\",\"metadata\":" : String) ++ "\"" = "\",\"metadata\":\"" by decide)]
  rw [show ("\"" : String) ++ "\x7d" = "\"\x7d" by decide]

theorem serialize_eq_render (m : IPCMessage) :
    serializeIPCMessage m = renderFlatObj
      [("type", JPrim.jstr (toString (ipcTypeCode m.type))),
       ("data", JPrim.jstr m.data),
       ("metadata", JPrim.jstr m.metadata)] := by
  have hr : renderFlatObj
      [("type", JPrim.jstr (toString (ipcTypeCode m.type))),
       ("data", JPrim.jstr m.data),
       ("metadata", JPrim.jstr m.metadata)] =
      "\x7b" ++
        ((((("\"" ++ ("type" ++ ("\":" ++
              ("\"" ++ (toString (ipcTypeCode m.type) ++ "\""))))) ++ ",") ++
           ("\"" ++ ("data" ++ ("\":" ++ ("\"" ++ (m.data ++ "\"")))))) ++ "," ++
          ("\"" ++ ("metadata" ++ ("\":" ++ ("\"" ++ (m.metadata ++ "\"")))))) ++
         "\x7d") := rfl
  rw [hr]
  simp only [String.append_assoc]
  rw [renderChunks]
  rfl

/-- C4 counterexample: at a concrete message, `sendMessage`'s serialized
bytes are the JSON object whose `type` field is the STRING `"0"` and not
the JSON object whose `type` field is the integer `0`, refuting the claim
that the `type` field is the integer code. -/
theorem c4_counterexample :
    serializeIPCMessage { type := IPCType.AudioData, data := "abc", metadata := "m" } =
      renderFlatObj [("type", JPrim.jstr "0"), ("data", JPrim.jstr "abc"),
        ("metadata", JPrim.jstr "m")] ∧
    serializeIPCMessage { type := IPCType.AudioData, data := "abc", metadata := "m" } ≠
      renderFlatObj [("type", JPrim.jint 0), ("data", JPrim.jstr "abc"),
        ("metadata", JPrim.jstr "m")] := by
  decide

/-- C4 (amended): `sendMessage` returns `false` when not connected, and
otherwise serializes the message to a JSON object whose `type` field is a
JSON STRING holding the decimal integer code of the message type
(AudioData=0, Transcription=1, LuaScript=2, Error=3, Status=4) and whose
`data` and `metadata` fields are the message's strings, before writing it
to the socket. -/
theorem c4_sendMessage (sendOk : Bool) (m : IPCMessage) :
    sendMessage false sendOk m = (false, none) ∧
    (sendMessage true sendOk m).2 = some (renderFlatObj
      [("type", JPrim.jstr (toString (ipcTypeCode m.type))),
       ("data", JPrim.jstr m.data),
       ("metadata", JPrim.jstr m.metadata)]) ∧
    ipcTypeCode IPCType.AudioData = 0 ∧
    ipcTypeCode IPCType.Transcription = 1 ∧
    ipcTypeCode IPCType.LuaScript = 2 ∧
    ipcTypeCode IPCType.Error = 3 ∧
    ipcTypeCode IPCType.Status = 4 := by
  refine ⟨rfl, ?_, rfl, rfl, rfl, rfl, rfl⟩
  show some (serializeIPCMessage m) = _
  rw [serialize_eq_render]

theorem processAudioData_keeps (h : VCH) (env : TransEnv) :
    (processAudioData h env).1.lastAudioPath = h.lastAudioPath ∧
    (processAudioData h env).1.files = h.files ∧
    (processAudioData h env).1.transcription = h.transcription ∧
    ((processAudioData h env).1.state = h.state ∨
     (processAudioData h env).1.state = VoiceState.Error) := by
  unfold processAudioData
  repeat' split
  all_goals
    exact ⟨by simp, by simp, by simp,
      by rw [setError_fst_state]; split_ifs <;> simp⟩

theorem setTranscription_change (h : VCH) (t : String)
    (hne : h.transcription ≠ t) (ht : t ≠ "") :
    (setTranscription h t true).1.state = VoiceState.Idle ∧
    (setTranscription h t true).1.lastAudioPath = "" ∧
    (setTranscription h t true).1.files =
      (if h.lastAudioPath = "" then h.files
       else h.files.filter (fun f => f ≠ h.lastAudioPath)) := by
  unfold setTranscription cleanupAudioFile
  by_cases hp : h.lastAudioPath = "" <;> simp [hne, ht, hp]

theorem setTranscription_change_throw (h : VCH) (t : String)
    (hne : h.transcription ≠ t) (ht : t ≠ "") :
    (setTranscription h t false).1.state = VoiceState.Idle ∧
    (setTranscription h t false).1.lastAudioPath = h.lastAudioPath ∧
    (setTranscription h t false).1.files = h.files := by
  unfold setTranscription cleanupAudioFile
  by_cases hp : h.lastAudioPath = "" <;> simp [hne, ht, hp]

theorem setTranscription_change_state (h : VCH) (t : String) (rOk : Bool)
    (hne : h.transcription ≠ t) (ht : t ≠ "") :
    (setTranscription h t rOk).1.state = VoiceState.Idle := by
  unfold setTranscription cleanupAudioFile
  cases rOk <;> by_cases hp : h.lastAudioPath = "" <;> simp [hne, ht, hp]

theorem audioFileName_ne_empty (ts : Nat) : audioFileName ts ≠ "" := by
  intro hEq
  unfold audioFileName at hEq
  have hd := congrArg String.data hEq
  rw [String.data_append] at hd
  rcases List.append_eq_nil.mp hd with ⟨h1, _⟩
  exact absurd h1 (by decide)

theorem setError_recInv (h : VCH) (e : String) (hI : RecInv h) :
    RecInv (setError h e).1 := by
  intro hrec
  rw [setError_fst_transcription]
  rw [setError_fst_state] at hrec
  split_ifs at hrec with hc
  exact hI hrec

theorem startRecording_recInv (h : VCH) (i s : Bool) (hI : RecInv h) :
    RecInv (startRecording h i s).1 := by
  unfold startRecording
  split_ifs with h1 h2 h3 <;> try dsimp only
  all_goals intro hrec
  · rw [setError_fst_transcription]
    exact hI h1
  · rw [setError_fst_state] at hrec
    split_ifs at hrec with hc
    exact absurd hrec h1
  · simp
  · rw [setError_fst_state] at hrec
    split_ifs at hrec with hc
    dsimp only at hrec
    exact absurd hrec h1

theorem stop_branch_recInv (r : VCH × String) (rOk : Bool)
    (hs : r.1.state ≠ VoiceState.Recording) :
    RecInv (if r.2 = "" then ((setState r.1 VoiceState.Error).1, false)
            else ((setTranscription r.1 r.2 rOk).1, true)).1 := by
  intro hrec
  split at hrec
  · rw [setState_fst_state] at hrec
    exact absurd hrec (by decide)
  · rename_i hr2
    by_cases hteq : r.1.transcription = r.2
    · rw [show setTranscription r.1 r.2 rOk = (r.1, []) from by
        simp [setTranscription, hteq]] at hrec
      exact absurd hrec hs
    · rw [setTranscription_change_state r.1 r.2 rOk hteq hr2] at hrec
      exact absurd hrec (by decide)

theorem stopRecording_recInv (h : VCH) (env : StopEnv) :
    RecInv (stopRecording h env).1 := by
  unfold stopRecording
  by_cases h1 : h.state ≠ VoiceState.Recording
  · rw [if_pos h1]
    exact setError_recInv h _ (fun hr => absurd hr h1)
  · rw [if_neg h1]
    try dsimp only
    by_cases h2 : ¬ (env.saveOk = true)
    · rw [if_pos h2]
      intro hrec
      try dsimp only at hrec
      rw [setState_fst_state] at hrec
      exact absurd hrec (by decide)
    · rw [if_neg h2]
      try dsimp only
      apply stop_branch_recInv
      rcases (processAudioData_keeps _ env.trans).2.2.2 with hstate | hstate <;>
        rw [hstate]
      · simp
      · decide

theorem stop_core (h0 : VCH) (tenv : TransEnv)
    (hTrans : h0.transcription = "") (hp : h0.lastAudioPath ≠ "")
    (hr : (processAudioData h0 tenv).2 ≠ "") :
    (setTranscription (processAudioData h0 tenv).1
      (processAudioData h0 tenv).2 true).1.state = VoiceState.Idle ∧
    (setTranscription (processAudioData h0 tenv).1
      (processAudioData h0 tenv).2 true).1.lastAudioPath = "" ∧
    h0.lastAudioPath ∉ (setTranscription (processAudioData h0 tenv).1
      (processAudioData h0 tenv).2 true).1.files := by
  obtain ⟨k1, k2, k3, _⟩ := processAudioData_keeps h0 tenv
  have hne : (processAudioData h0 tenv).1.transcription ≠
      (processAudioData h0 tenv).2 := by
    rw [k3, hTrans]
    exact fun hEq => hr hEq.symm
  obtain ⟨s1, s2, s3⟩ := setTranscription_change _ _ hne hr
  refine ⟨s1, s2, ?_⟩
  rw [s3, k1, if_neg hp, k2]
  simp [List.mem_filter]

theorem stop_core_throw (h0 : VCH) (tenv : TransEnv)
    (hTrans : h0.transcription = "")
    (hr : (processAudioData h0 tenv).2 ≠ "") :
    (setTranscription (processAudioData h0 tenv).1
      (processAudioData h0 tenv).2 false).1.state = VoiceState.Idle ∧
    (setTranscription (processAudioData h0 tenv).1
      (processAudioData h0 tenv).2 false).1.lastAudioPath =
        h0.lastAudioPath ∧
    (setTranscription (processAudioData h0 tenv).1
      (processAudioData h0 tenv).2 false).1.files = h0.files := by
  obtain ⟨k1, k2, k3, _⟩ := processAudioData_keeps h0 tenv
  have hne : (processAudioData h0 tenv).1.transcription ≠
      (processAudioData h0 tenv).2 := by
    rw [k3, hTrans]
    exact fun hEq => hr hEq.symm
  obtain ⟨s1, s2, s3⟩ := setTranscription_change_throw _ _ hne hr
  exact ⟨s1, s2.trans k1, s3.trans k2⟩

theorem stopRecording_true (h : VCH) (env : StopEnv) (hI : RecInv h)
    (ht : (stopRecording h env).2 = true) :
    (stopRecording h env).1.state = VoiceState.Idle ∧
    (env.removeOk = true →
      (stopRecording h env).1.lastAudioPath = "" ∧
      audioFileName env.timestamp ∉ (stopRecording h env).1.files) ∧
    (env.removeOk = false →
      (stopRecording h env).1.lastAudioPath = audioFileName env.timestamp ∧
      audioFileName env.timestamp ∈ (stopRecording h env).1.files) := by
  unfold stopRecording at ht ⊢
  by_cases h1 : h.state ≠ VoiceState.Recording
  · rw [if_pos h1] at ht
    simp at ht
  · rw [if_neg h1] at ht ⊢
    dsimp only at ht ⊢
    by_cases h2 : ¬ (env.saveOk = true)
    · rw [if_pos h2] at ht
      dsimp only at ht
      simp at ht
    · rw [if_neg h2] at ht ⊢
      try dsimp only at ht ⊢
      split at ht
      · simp at ht
      · rename_i hr2
        rw [if_neg hr2]
        try dsimp only
        cases hrem : env.removeOk with
        | true =>
          obtain ⟨s1, s2, s3⟩ := stop_core _ env.trans
            (by simpa using hI (not_not.mp h1))
            (audioFileName_ne_empty env.timestamp) hr2
          exact ⟨s1, fun _ => ⟨s2, s3⟩, fun hf => absurd hf (by decide)⟩
        | false =>
          obtain ⟨s1, s2, s3⟩ := stop_core_throw _ env.trans
            (by simpa using hI (not_not.mp h1)) hr2
          refine ⟨s1, fun hf => absurd hf (by decide), fun _ => ⟨s2, ?_⟩⟩
          rw [s3]
          exact List.mem_cons_self _ _

theorem runRec_recInv (ops : List RecOp) :
    ∀ h : VCH, RecInv h → RecInv (runRec h ops) := by
  induction ops with
  | nil => intro h hI; exact hI
  | cons op rest ih =>
    intro h hI
    cases op with
    | start i s => exact ih _ (startRecording_recInv h i s hI)
    | stop env => exact ih _ (stopRecording_recInv h env)

/-- C3 counterexample: after one successful `startRecording`, a
`stopRecording` whose transcription succeeds but whose
`std::filesystem::remove` throws still returns `true` and reaches `Idle`,
yet the retained last-audio-path is NOT cleared and the session's
temporary audio file is still in the temporary directory — refuting the
claim that after every true-returning `stopRecording` the file has been
deleted and the retained path cleared. -/
theorem c3_counterexample :
    (stopRecording (runRec initHandler [RecOp.start true true])
      stopEnvRemoveFail).2 = true ∧
    (stopRecording (runRec initHandler [RecOp.start true true])
      stopEnvRemoveFail).1.state = VoiceState.Idle ∧
    (stopRecording (runRec initHandler [RecOp.start true true])
      stopEnvRemoveFail).1.lastAudioPath ≠ "" ∧
    audioFileName stopEnvRemoveFail.timestamp ∈
      (stopRecording (runRec initHandler [RecOp.start true true])
        stopEnvRemoveFail).1.files := by
  decide

/-- C3 (amended): for every sequence of `startRecording`/`stopRecording`
calls from the freshly constructed handler, after a `stopRecording` call
that returns `true` (the transcription step produced a non-empty string)
the handler's state is `Idle`; when the `std::filesystem::remove` of the
session's temporary audio file does not throw, that file has been deleted
and the retained last-audio-path is cleared, and when it throws, the
failure is only logged and both the file and the retained path are left
in place. -/
theorem c3_stop_success (ops : List RecOp) (env : StopEnv)
    (ht : (stopRecording (runRec initHandler ops) env).2 = true) :
    (stopRecording (runRec initHandler ops) env).1.state = VoiceState.Idle ∧
    (env.removeOk = true →
      (stopRecording (runRec initHandler ops) env).1.lastAudioPath = "" ∧
      audioFileName env.timestamp ∉
        (stopRecording (runRec initHandler ops) env).1.files) ∧
    (env.removeOk = false →
      (stopRecording (runRec initHandler ops) env).1.lastAudioPath =
        audioFileName env.timestamp ∧
      audioFileName env.timestamp ∈
        (stopRecording (runRec initHandler ops) env).1.files) :=
  stopRecording_true _ env (runRec_recInv ops initHandler (fun _ => rfl)) ht

/-- C3 witness: `c3_stop_success` on the one-call sequence
`[startRecording]` followed by a succeeding `stopRecording` whose file
removal succeeds. -/
theorem c3_stop_success_witness :
    (stopRecording (runRec initHandler [RecOp.start true true])
      stopEnvOk).1.state = VoiceState.Idle ∧
    (stopEnvOk.removeOk = true →
      (stopRecording (runRec initHandler [RecOp.start true true])
        stopEnvOk).1.lastAudioPath = "" ∧
      audioFileName stopEnvOk.timestamp ∉
        (stopRecording (runRec initHandler [RecOp.start true true])
          stopEnvOk).1.files) ∧
    (stopEnvOk.removeOk = false →
      (stopRecording (runRec initHandler [RecOp.start true true])
        stopEnvOk).1.lastAudioPath = audioFileName stopEnvOk.timestamp ∧
      audioFileName stopEnvOk.timestamp ∈
        (stopRecording (runRec initHandler [RecOp.start true true])
          stopEnvOk).1.files) :=
  c3_stop_success [RecOp.start true true] stopEnvOk (by decide)

theorem insertHandle_mem (l : List Nat) (k y : Nat) :
    y ∈ insertHandle l k ↔ y = k ∨ y ∈ l := by
  induction l with
  | nil => simp [insertHandle]
  | cons x xs ih =>
    by_cases h1 : k < x
    · simp [insertHandle, h1]
    · by_cases h2 : k = x
      · subst h2
        simp [insertHandle, h1]
      · simp [insertHandle, h1, h2, ih]
        tauto

theorem insertHandle_pairwise (l : List Nat) (k : Nat)
    (hp : l.Pairwise (· < ·)) : (insertHandle l k).Pairwise (· < ·) := by
  induction l with
  | nil => simp [insertHandle]
  | cons x xs ih =>
    rcases List.pairwise_cons.mp hp with ⟨hx, hxs⟩
    by_cases h1 : k < x
    · simp only [insertHandle, if_pos h1]
      refine List.pairwise_cons.mpr ⟨?_, hp⟩
      intro y hy
      rcases List.mem_cons.mp hy with rfl | hy'
      · exact h1
      · exact lt_trans h1 (hx y hy')
    · by_cases h2 : k = x
      · subst h2
        simp only [insertHandle, if_neg h1, if_pos rfl]
        exact List.pairwise_cons.mpr ⟨hx, hxs⟩
      · have hxk : x < k := by omega
        simp only [insertHandle, if_neg h1, if_neg h2]
        refine List.pairwise_cons.mpr ⟨?_, ih hxs⟩
        intro y hy
        rcases (insertHandle_mem xs k y).mp hy with rfl | hy'
        · exact hxk
        · exact hx y hy'

theorem runCbOps_spec (ops : List CbOp) :
    ∀ h : VCH, CbInv h →
      (runCbOps h ops).2 = List.range' h.nextCallbackHandle (countAdds ops) ∧
      CbInv (runCbOps h ops).1 := by
  induction ops with
  | nil =>
    intro h hI
    exact ⟨by simp [runCbOps, countAdds], hI⟩
  | cons op rest ih =>
    intro h hI
    cases op with
    | add =>
      have hI' : CbInv (addStateChangeCallback h).1 := by
        unfold addStateChangeCallback CbInv
        constructor
        · intro x hx
          rcases (insertHandle_mem _ _ _).mp hx with rfl | hx'
          · exact Nat.lt_succ_self _
          · exact Nat.lt_succ_of_lt (hI.1 x hx')
        · exact insertHandle_pairwise _ _ hI.2
      obtain ⟨e1, e2⟩ := ih (addStateChangeCallback h).1 hI'
      refine ⟨?_, e2⟩
      show (addStateChangeCallback h).2 ::
        (runCbOps (addStateChangeCallback h).1 rest).2 = _
      rw [e1]
      show h.nextCallbackHandle ::
          List.range' (h.nextCallbackHandle + 1) (countAdds rest) =
        List.range' h.nextCallbackHandle (countAdds rest + 1)
      rw [List.range'_succ]
    | rem k =>
      have hI' : CbInv (removeStateChangeCallback h k) := by
        constructor
        · intro x hx
          exact hI.1 x (List.mem_of_mem_filter hx)
        · exact hI.2.sublist (List.filter_sublist _)
      obtain ⟨e1, e2⟩ := ih _ hI'
      exact ⟨e1, e2⟩
    | set s =>
      have hI' : CbInv (setState h s).1 := by
        constructor
        · intro x hx
          rw [setState_fst_callbacks] at hx
          rw [setState_fst_nextCallbackHandle]
          exact hI.1 x hx
        · rw [setState_fst_callbacks]
          exact hI.2
      obtain ⟨e1, e2⟩ := ih _ hI'
      refine ⟨?_, e2⟩
      rw [show runCbOps h (CbOp.set s :: rest) =
        runCbOps (setState h s).1 rest from rfl]
      rw [e1, setState_fst_nextCallbackHandle]
      rfl

/-- C8: callback handles returned by `addStateChangeCallback` from the
fresh handler are the increasing integers 0, 1, 2, … in registration
order, whatever mix of add/remove/set-state operations runs; `setState`
is a no-op when the new state equals the stored one; and when the state
actually changes, the invoked callback list is exactly the registered
callback map, which is strictly ascending in handle order — so every
registered callback is invoked exactly once, in registration
(ascending-handle) order. -/
theorem c8_callbacks :
    (∀ ops : List CbOp,
      (runCbOps initHandler ops).2 = List.range (countAdds ops)) ∧
    (∀ h : VCH, setState h h.state = (h, [])) ∧
    (∀ (ops : List CbOp) (s : VoiceState),
      (runCbOps initHandler ops).1.state ≠ s →
        (setState (runCbOps initHandler ops).1 s).2 =
          (runCbOps initHandler ops).1.callbacks ∧
        ((runCbOps initHandler ops).1.callbacks).Pairwise (· < ·)) := by
  have hInit : CbInv initHandler := ⟨by simp [initHandler], by simp [initHandler]⟩
  refine ⟨?_, ?_, ?_⟩
  · intro ops
    have e := (runCbOps_spec ops initHandler hInit).1
    rw [e]
    rw [List.range_eq_range']
    rfl
  · intro h
    simp [setState]
  · intro ops s hne
    exact ⟨by simp [setState, hne], (runCbOps_spec ops initHandler hInit).2.2⟩

/-- C8 witness: `c8_callbacks` applied to the sequence of two
registrations and a transition to `Recording`. -/
theorem c8_callbacks_witness :
    (runCbOps initHandler [CbOp.add, CbOp.add]).2 =
      List.range (countAdds [CbOp.add, CbOp.add]) ∧
    ((setState (runCbOps initHandler [CbOp.add, CbOp.add]).1
        VoiceState.Recording).2 =
      (runCbOps initHandler [CbOp.add, CbOp.add]).1.callbacks ∧
     ((runCbOps initHandler [CbOp.add, CbOp.add]).1.callbacks).Pairwise
       (· < ·)) :=
  ⟨c8_callbacks.1 [CbOp.add, CbOp.add],
   c8_callbacks.2.2 [CbOp.add, CbOp.add] VoiceState.Recording (by decide)⟩
